import Mathlib

/-!
A verification development for the wdi-rs driver-installation crate.

The definitions below are a shallow embedding of the crate's source:

* `Wdi.Error` and `Wdi.Error.from_code` embed the error taxonomy and the
  native-status-code translation from `src/wdi.rs`.
* `Wdi.Device`, `Wdi.DeviceList` and the marshalling functions embed the
  device record, the device-list collection, and the C-string transcoding
  performed by `prepare_driver` / `install_driver`.
* The native library, the filesystem, and temporary-directory creation are
  external effects; they are modelled by an explicit environment
  (`Wdi.Env`) that supplies the results of those effects, and the
  orchestration functions return, alongside their result, a list of
  `Wdi.Event`s recording resource creation/release and native calls, so
  that resource-lifetime properties can be stated as trace properties.

Machine integers (u16, u8, u64, c_int) are modelled as `Nat` / `Int`; no
arithmetic in the embedded code can overflow, so no wrap-around modelling
is needed.  Rust `Option<String>` fields become `Option String`; a null C
pointer is modelled as `none`.
-/

namespace Wdi

/-- Error codes returned by libwdi (enum `Error` in `src/wdi.rs`). -/
inductive Error where
  | Io
  | InvalidParam
  | Access
  | NoDevice
  | NotFound
  | Busy
  | Timeout
  | Overflow
  | PendingInstallation
  | Interrupted
  | Resource
  | NotSupported
  | Exists
  | UserCancel
  | NeedsAdmin
  | Wow64
  | InfSyntax
  | CatMissing
  | Unsigned
  | Other
  | Unknown (code : Int)
deriving DecidableEq, Repr

/-- `Error::from_code` in `src/wdi.rs`: translates a native status code to
`Ok(())` or an error variant.  The Rust `match` on integer literals is
embedded as a chain of equality tests over `Int`. -/
def Error.from_code (code : Int) : Except Error Unit :=
  if code = 0 then .ok ()
  else if code = -1 then .error .Io
  else if code = -2 then .error .InvalidParam
  else if code = -3 then .error .Access
  else if code = -4 then .error .NoDevice
  else if code = -5 then .error .NotFound
  else if code = -6 then .error .Busy
  else if code = -7 then .error .Timeout
  else if code = -8 then .error .Overflow
  else if code = -9 then .error .PendingInstallation
  else if code = -10 then .error .Interrupted
  else if code = -11 then .error .Resource
  else if code = -12 then .error .NotSupported
  else if code = -13 then .error .Exists
  else if code = -14 then .error .UserCancel
  else if code = -15 then .error .NeedsAdmin
  else if code = -16 then .error .Wow64
  else if code = -17 then .error .InfSyntax
  else if code = -18 then .error .CatMissing
  else if code = -19 then .error .Unsigned
  else if code = -99 then .error .Other
  else .error (.Unknown code)

/-- Driver types supported by libwdi (enum `DriverType` in `src/wdi.rs`). -/
inductive DriverType where
  | WinUsb
  | LibUsb0
  | LibUsbK
  | Cdc
  | User
deriving DecidableEq, Repr

/-- `DriverType::to_c_int` in `src/wdi.rs`. -/
def DriverType.to_c_int : DriverType → Int
  | .WinUsb => 0
  | .LibUsb0 => 1
  | .LibUsbK => 2
  | .Cdc => 3
  | .User => 4

/-- A connected device (struct `Device` in `src/wdi.rs`).  `vid`/`pid` are
u16, `mi` is u8, `driver_version` is u64; all modelled as `Nat`. -/
structure Device where
  vid : Nat
  pid : Nat
  is_composite : Bool
  mi : Nat
  desc : Option String
  driver : Option String
  device_id : Option String
  hardware_id : Option String
  compatible_id : Option String
  upper_filter : Option String
  driver_version : Nat
deriving DecidableEq, Repr

/-- The NUL character, the C string terminator. -/
def nul_char : Char := Char.ofNat 0

/-- Whether a string contains an embedded NUL character (stated over the
string's character list so that it evaluates by structural recursion). -/
def contains_nul (s : String) : Bool :=
  s.data.any (fun c => c = nul_char)

/-- Models `CString::new(s)`: fails (returns `none`) exactly when the string
contains an embedded NUL character. -/
def cstring_new (s : String) : Option String :=
  if contains_nul s then none else some s

/-- Rust `str::starts_with`, stated over character lists. -/
def starts_with (s marker : String) : Bool :=
  marker.data.isPrefixOf s.data

/-- Models the `opt.as_ref().and_then(|s| CString::new(s.as_str()).ok())`
pattern used in `prepare_driver` / `install_driver`: an absent string or a
string with an embedded NUL both become a null pointer (`none`). -/
def opt_cstring (o : Option String) : Option String :=
  o.bind cstring_new

/-- Models Rust `b as c_int` for a `bool`. -/
def bool_to_c_int (b : Bool) : Int :=
  if b then 1 else 0

/-- The marshalled `WdiDeviceInfo` struct handed to the native calls
(`src/ffi.rs`).  The `next` pointer, always set to null by the wrapper, is
omitted; `none` models a null string pointer. -/
structure WdiDeviceInfo where
  vid : Nat
  pid : Nat
  is_composite : Int
  mi : Nat
  desc : Option String
  driver : Option String
  device_id : Option String
  hardware_id : Option String
  compatible_id : Option String
  upper_filter : Option String
  driver_version : Nat
deriving DecidableEq, Repr

/-- The device-info marshalling performed identically in `prepare_driver`
and `install_driver` (`src/wdi.rs`): each optional device string is
transcoded with `CString::new(..).ok()`, so a NUL-containing string is
passed as a null pointer rather than failing. -/
def marshal_device (device : Device) : WdiDeviceInfo :=
  { vid := device.vid
    pid := device.pid
    is_composite := bool_to_c_int device.is_composite
    mi := device.mi
    desc := opt_cstring device.desc
    driver := opt_cstring device.driver
    device_id := opt_cstring device.device_id
    hardware_id := opt_cstring device.hardware_id
    compatible_id := opt_cstring device.compatible_id
    upper_filter := opt_cstring device.upper_filter
    driver_version := device.driver_version }

/-- Options for preparing a driver (struct `PrepareDriverOptions` in
`src/wdi.rs`). -/
structure PrepareDriverOptions where
  driver_type : DriverType
  vendor_name : Option String
  device_guid : Option String
  disable_cat : Bool
  disable_signing : Bool
  cert_subject : Option String
  use_wcid_driver : Bool
  external_inf : Bool
deriving DecidableEq, Repr

/-- `PrepareDriverOptions::default()` in `src/wdi.rs`. -/
def PrepareDriverOptions.mk_default : PrepareDriverOptions :=
  { driver_type := .WinUsb
    vendor_name := none
    device_guid := none
    disable_cat := false
    disable_signing := false
    cert_subject := none
    use_wcid_driver := false
    external_inf := false }

/-- The marshalled `WdiOptionsPrepareDriver` struct (`src/ffi.rs`). -/
structure WdiOptionsPrepareDriver where
  driver_type : Int
  vendor_name : Option String
  device_guid : Option String
  disable_cat : Int
  disable_signing : Int
  cert_subject : Option String
  use_wcid_driver : Int
  external_inf : Int
deriving DecidableEq, Repr

/-- The prepare-options marshalling in `prepare_driver` (`src/wdi.rs`). -/
def marshal_prepare_options (options : PrepareDriverOptions) : WdiOptionsPrepareDriver :=
  { driver_type := options.driver_type.to_c_int
    vendor_name := opt_cstring options.vendor_name
    device_guid := opt_cstring options.device_guid
    disable_cat := bool_to_c_int options.disable_cat
    disable_signing := bool_to_c_int options.disable_signing
    cert_subject := opt_cstring options.cert_subject
    use_wcid_driver := bool_to_c_int options.use_wcid_driver
    external_inf := bool_to_c_int options.external_inf }

/-- Options for installing a driver (struct `InstallDriverOptions` in
`src/wdi.rs`). -/
structure InstallDriverOptions where
  install_filter_driver : Bool
  pending_install_timeout : Nat
deriving DecidableEq, Repr

/-- `InstallDriverOptions::DEFAULT_PENDING_INSTALL_TIMEOUT`. -/
def DEFAULT_PENDING_INSTALL_TIMEOUT : Nat := 120000

/-- `InstallDriverOptions::default()` in `src/wdi.rs`. -/
def InstallDriverOptions.mk_default : InstallDriverOptions :=
  { install_filter_driver := false
    pending_install_timeout := DEFAULT_PENDING_INSTALL_TIMEOUT }

/-- The marshalled `WdiOptionsInstallDriver` struct (`src/ffi.rs`); the
`hwnd` field, always null, is omitted. -/
structure WdiOptionsInstallDriver where
  install_filter_driver : Int
  pending_install_timeout : Nat
deriving DecidableEq, Repr

/-- The install-options marshalling in `install_driver` (`src/wdi.rs`). -/
def marshal_install_options (options : InstallDriverOptions) : WdiOptionsInstallDriver :=
  { install_filter_driver := bool_to_c_int options.install_filter_driver
    pending_install_timeout := options.pending_install_timeout }

/-- The arguments of a native `wdi_prepare_driver` call. -/
structure PrepareCall where
  device_info : WdiDeviceInfo
  path : String
  inf_name : String
  opts : WdiOptionsPrepareDriver
deriving DecidableEq, Repr

/-- The arguments of a native `wdi_install_driver` call. -/
structure InstallCall where
  device_info : WdiDeviceInfo
  path : String
  inf_name : String
  opts : WdiOptionsInstallDriver
deriving DecidableEq, Repr

instance decEqExcept {ε α : Type} [DecidableEq ε] [DecidableEq α] :
    DecidableEq (Except ε α) := fun a b =>
  match a, b with
  | .ok x, .ok y =>
    if h : x = y then .isTrue (by rw [h]) else .isFalse (by simp [h])
  | .ok _, .error _ => .isFalse (by simp)
  | .error _, .ok _ => .isFalse (by simp)
  | .error e, .error f =>
    if h : e = f then .isTrue (by rw [h]) else .isFalse (by simp [h])

/-- The observable behaviour of one facade call: whether (and with what
arguments) the native call was reached, and the returned result. -/
structure FfiTrace (α : Type) where
  native_call : Option α
  result : Except Error Unit
deriving DecidableEq, Repr

/-- `prepare_driver` in `src/wdi.rs`.  `path` and `inf_name` are converted
with `CString::new(..)?`-style error mapping (failing fast with
`InvalidParam` before the native call); the device and option strings are
converted with `.ok()` (silently null on failure).  The native call's
return code is supplied by the environment as `native_code`. -/
def prepare_driver (device : Device) (path : String) (inf_name : String)
    (options : PrepareDriverOptions) (native_code : Int) : FfiTrace PrepareCall :=
  match cstring_new path with
  | none => { native_call := none, result := .error .InvalidParam }
  | some path_c =>
    match cstring_new inf_name with
    | none => { native_call := none, result := .error .InvalidParam }
    | some inf_name_c =>
      { native_call := some
          { device_info := marshal_device device
            path := path_c
            inf_name := inf_name_c
            opts := marshal_prepare_options options }
        result := Error.from_code native_code }

/-- `install_driver` in `src/wdi.rs`; same transcoding discipline as
`prepare_driver`. -/
def install_driver (device : Device) (path : String) (inf_name : String)
    (options : InstallDriverOptions) (native_code : Int) : FfiTrace InstallCall :=
  match cstring_new path with
  | none => { native_call := none, result := .error .InvalidParam }
  | some path_c =>
    match cstring_new inf_name with
    | none => { native_call := none, result := .error .InvalidParam }
    | some inf_name_c =>
      { native_call := some
          { device_info := marshal_device device
            path := path_c
            inf_name := inf_name_c
            opts := marshal_install_options options }
        result := Error.from_code native_code }

/-- A list of connected devices (struct `DeviceList` in `src/wdi.rs`).
The native singly-linked `WdiDeviceInfo` chain is modelled by the sequence
of device records the copy-out iterator would materialize from it, in link
order; the head pointer is null exactly when this sequence is empty. -/
structure DeviceList where
  devices : List Device
deriving DecidableEq, Repr

/-- `DeviceList::iter`: the iterator walks the chain and copies out one
`Device` per node, so the sequence of items it yields is `devices`. -/
def DeviceList.iter (l : DeviceList) : List Device :=
  l.devices

/-- `DeviceList::len`: `self.iter().count()`. -/
def DeviceList.len (l : DeviceList) : Nat :=
  l.iter.length

/-- `DeviceList::is_empty`: `self.head.is_null()`, i.e. the chain has no
nodes. -/
def DeviceList.is_empty (l : DeviceList) : Bool :=
  l.devices.isEmpty

/-- `DeviceList::get`: `self.iter().nth(index)`. -/
def DeviceList.get (l : DeviceList) (index : Nat) : Option Device :=
  l.iter.get? index

/-- `DeviceList::from_vid_pid`: filters the iterated devices by VID and
PID. -/
def DeviceList.from_vid_pid (l : DeviceList) (vid pid : Nat) : List Device :=
  l.iter.filter (fun d => d.vid == vid && d.pid == pid)

/-- Options for creating a device list (struct `CreateListOptions` in
`src/wdi.rs`). -/
structure CreateListOptions where
  list_all : Bool
  list_hubs : Bool
  trim_whitespaces : Bool
deriving DecidableEq, Repr

/-- `CreateListOptions::default()`. -/
def CreateListOptions.mk_default : CreateListOptions :=
  { list_all := false, list_hubs := false, trim_whitespaces := true }

/-- The known native status codes paired with the result `Error::from_code`
is specified to produce for them, listed in the order of the `match` arms
in `src/wdi.rs`. -/
def known_code_map : List (Int × Except Error Unit) :=
  [(0, .ok ()), (-1, .error .Io), (-2, .error .InvalidParam),
   (-3, .error .Access), (-4, .error .NoDevice), (-5, .error .NotFound),
   (-6, .error .Busy), (-7, .error .Timeout), (-8, .error .Overflow),
   (-9, .error .PendingInstallation), (-10, .error .Interrupted),
   (-11, .error .Resource), (-12, .error .NotSupported),
   (-13, .error .Exists), (-14, .error .UserCancel),
   (-15, .error .NeedsAdmin), (-16, .error .Wow64),
   (-17, .error .InfSyntax), (-18, .error .CatMissing),
   (-19, .error .Unsigned), (-99, .error .Other)]

/-- A filesystem path (Rust `PathBuf`), modelled abstractly: each path
carries its chain of ancestors (`Path::parent`) and an optional UTF-8
rendering (`Path::to_str`, `none` when the path is not representable in
the required encoding). -/
inductive Path where
  | root (str : Option String)
  | child (par : Path) (str : Option String)
deriving DecidableEq, Repr

/-- `Path::to_str`. -/
def Path.to_str : Path → Option String
  | .root s => s
  | .child _ s => s

/-- `Path::parent`: `none` at a root path. -/
def Path.parent : Path → Option Path
  | .root _ => none
  | .child p _ => some p

/-- `Path::join` on the target platform (Windows): appends one component;
the result is representable exactly when the base directory is. -/
def Path.join (p : Path) (name : String) : Path :=
  .child p (p.to_str.map (fun s => s ++ "\\" ++ name))

/-- Strategy for selecting which USB device to install a driver for
(enum `DeviceSelector` in `src/installer.rs`). -/
inductive DeviceSelector where
  | VidPid (vid : Nat) (pid : Nat)
  | First (predicate : Device → Bool)
  | Specific (device : Device)

/-- Source for the INF file used during driver installation (enum
`InfSource` in `src/installer.rs`); `data` is the raw byte contents. -/
inductive InfSource where
  | Embedded (data : List Nat) (filename : String)
  | External (path : Path)
  | Generated
deriving Repr

/-- `InfSource::default()`. -/
def InfSource.mk_default : InfSource := .Generated

/-- `matches!(src, InfSource::Generated)`. -/
def InfSource.is_generated : InfSource → Bool
  | .Generated => true
  | _ => false

/-- Options for driver installation (struct `InstallOptions` in
`src/installer.rs`). -/
structure InstallOptions where
  prepare_opts : PrepareDriverOptions
  install_opts : InstallDriverOptions
deriving DecidableEq, Repr

/-- `InstallOptions::default()`. -/
def InstallOptions.mk_default : InstallOptions :=
  { prepare_opts := PrepareDriverOptions.mk_default
    install_opts := InstallDriverOptions.mk_default }

/-- High-level builder for installing USB drivers (struct
`DriverInstaller` in `src/installer.rs`). -/
structure DriverInstaller where
  device_selector : DeviceSelector
  driver_type : DriverType
  inf_source : InfSource
  options : InstallOptions

/-- `DriverInstaller::new`. -/
def DriverInstaller.new (device_selector : DeviceSelector) : DriverInstaller :=
  { device_selector := device_selector
    driver_type := .WinUsb
    inf_source := InfSource.mk_default
    options := InstallOptions.mk_default }

/-- `DriverInstaller::for_device`. -/
def DriverInstaller.for_device (vid pid : Nat) : DriverInstaller :=
  .new (.VidPid vid pid)

/-- `DriverInstaller::for_specific_device`. -/
def DriverInstaller.for_specific_device (device : Device) : DriverInstaller :=
  .new (.Specific device)

/-- The external world consumed by one orchestration run: the native
enumeration (as a function of the options passed to `create_list`, giving
the sequence of devices its list would iterate to), temporary-directory
creation (`none` models an OS failure), the success of the INF byte write,
path existence, and the native return codes of the prepare and install
calls. -/
structure Env where
  create_list : CreateListOptions → Except Error (List Device)
  new_temp_dir : Option Path
  write_ok : Bool
  fs_exists : Path → Bool
  prepare_code : Int
  install_code : Int

/-- Observable resource and native-call events of one orchestration run,
in order of occurrence.  `temp_dir_released` is emitted when the scoped
`TempDir` handle is dropped (deleting its backing directory on disk). -/
inductive Event where
  | temp_dir_created (p : Path)
  | file_written (p : Path) (data : List Nat)
  | warned_external_inf_override (was : Bool) (now : Bool)
  | prepare_called (c : PrepareCall)
  | install_called (c : InstallCall)
  | temp_dir_released (p : Path)
deriving DecidableEq, Repr

/-- `DriverInstaller::find_device` in `src/installer.rs`: resolves the
device selector against the environment's enumeration. -/
def DriverInstaller.find_device (inst : DriverInstaller) (env : Env) :
    Except Error Device :=
  match inst.device_selector with
  | .Specific device => .ok device
  | .VidPid vid pid =>
    let opts : CreateListOptions :=
      { list_all := true, list_hubs := false, trim_whitespaces := true }
    match env.create_list opts with
    | .error e => .error e
    | .ok devices =>
      if devices.isEmpty then .error .NotFound
      else
        let matching := devices.filter (fun d => d.vid == vid && d.pid == pid)
        match matching with
        | [] => .error .NotFound
        | device :: _ => .ok device
  | .First predicate =>
    let opts : CreateListOptions :=
      { list_all := true, list_hubs := false, trim_whitespaces := true }
    match env.create_list opts with
    | .error e => .error e
    | .ok devices =>
      if devices.isEmpty then .error .NotFound
      else
        match devices.find? predicate with
        | some device => .ok device
        | none => .error .NotFound

/-- `DriverInstaller::check_existing_driver` in `src/installer.rs`: both
the WinUSB and the non-WinUSB branch fail with `Exists` (they differ only
in the logged diagnostic). -/
def DriverInstaller.check_existing_driver (device : Device) : Except Error Unit :=
  match device.driver with
  | some driver =>
    if starts_with driver "WinUSB" then .error .Exists
    else .error .Exists
  | none => .ok ()

/-- The INF-provisioning phase of `DriverInstaller::prepare_and_install`
(the `match &self.inf_source` block in `src/installer.rs`): resolves the
INF source to `(driver_path, inf_path, scoped temp dir)`.  On the failure
paths the early return drops any created `TempDir`, which is recorded as a
`temp_dir_released` event. -/
def provision (src : InfSource) (env : Env) :
    List Event × Except Error (String × String × Option Path) :=
  match src with
  | .Embedded data filename =>
    match env.new_temp_dir with
    | none => ([], .error .Resource)
    | some td =>
      match td.to_str with
      | none => ([.temp_dir_created td, .temp_dir_released td], .error .InvalidParam)
      | some driver_path =>
        let inf_file_path := td.join filename
        if env.write_ok then
          match inf_file_path.to_str with
          | none =>
            ([.temp_dir_created td, .file_written inf_file_path data,
              .temp_dir_released td], .error .InvalidParam)
          | some inf_path =>
            ([.temp_dir_created td, .file_written inf_file_path data],
             .ok (driver_path, inf_path, some td))
        else
          ([.temp_dir_created td, .temp_dir_released td], .error .Resource)
  | .External path =>
    if env.fs_exists path then
      match path.parent with
      | none => ([], .error .InvalidParam)
      | some par =>
        match par.to_str with
        | none => ([], .error .InvalidParam)
        | some driver_path =>
          match path.to_str with
          | none => ([], .error .InvalidParam)
          | some inf_path => ([], .ok (driver_path, inf_path, none))
    else ([], .error .NotFound)
  | .Generated =>
    match env.new_temp_dir with
    | none => ([], .error .Resource)
    | some td =>
      match td.to_str with
      | none => ([.temp_dir_created td, .temp_dir_released td], .error .InvalidParam)
      | some driver_path =>
        let inf_path := driver_path ++ "\\generated.inf"
        ([.temp_dir_created td], .ok (driver_path, inf_path, some td))

/-- The release of the scoped temp dir on a given exit path: dropping
`_temp_dir` (explicitly at the end on success, or implicitly by the `?`
early returns on failure). -/
def release_evs : Option Path → List Event
  | some td => [.temp_dir_released td]
  | none => []

/-- The prepare-then-install tail of `DriverInstaller::prepare_and_install`
(`src/installer.rs`): calls the facade's `prepare_driver`, then on success
`install_driver`, releasing the scoped temp dir on every exit path
(explicit `drop` on success, `?` early return on failure). -/
def run_prepare_install (device : Device) (driver_path inf_path : String)
    (prepare_opts : PrepareDriverOptions) (install_opts : InstallDriverOptions)
    (temp : Option Path) (env : Env) : List Event × Except Error Device :=
  let ptrace := prepare_driver device driver_path inf_path prepare_opts env.prepare_code
  let prepare_evs :=
    match ptrace.native_call with
    | some c => [Event.prepare_called c]
    | none => []
  match ptrace.result with
  | .error e =>
    (prepare_evs ++ release_evs temp, .error e)
  | .ok () =>
    let itrace := install_driver device driver_path inf_path
      install_opts env.install_code
    let install_evs :=
      match itrace.native_call with
      | some c => [Event.install_called c]
      | none => []
    match itrace.result with
    | .error e =>
      (prepare_evs ++ install_evs ++ release_evs temp, .error e)
    | .ok () =>
      (prepare_evs ++ install_evs ++ release_evs temp, .ok device)

/-- `DriverInstaller::prepare_and_install` in `src/installer.rs`:
provisioning, then the derived external-INF override (with a warning when
the configured value differs), then the prepare and install calls via
`run_prepare_install`. -/
def DriverInstaller.prepare_and_install (inst : DriverInstaller) (device : Device)
    (env : Env) : List Event × Except Error Device :=
  match provision inst.inf_source env with
  | (evs, .error e) => (evs, .error e)
  | (evs, .ok (driver_path, inf_path, temp)) =>
    let should_use_external_inf := !inst.inf_source.is_generated
    let warn_evs :=
      if inst.options.prepare_opts.external_inf ≠ should_use_external_inf then
        [Event.warned_external_inf_override
          inst.options.prepare_opts.external_inf should_use_external_inf]
      else []
    let prepare_opts :=
      { inst.options.prepare_opts with
          external_inf := should_use_external_inf
          driver_type := inst.driver_type }
    let (run_evs, res) := run_prepare_install device driver_path inf_path
      prepare_opts inst.options.install_opts temp env
    (evs ++ warn_evs ++ run_evs, res)

/-- `DriverInstaller::install` in `src/installer.rs`: selection, conflict
check, then prepare-and-install; the first two phases create no resources
and make no native prepare/install calls, so they contribute no events. -/
def DriverInstaller.install (inst : DriverInstaller) (env : Env) :
    List Event × Except Error Device :=
  match inst.find_device env with
  | .error e => ([], .error e)
  | .ok device =>
    match DriverInstaller.check_existing_driver device with
    | .error e => ([], .error e)
    | .ok () => inst.prepare_and_install device env

/-! ### Trace predicates and concrete fixtures -/

/-- Whether an event is a temp-directory creation. -/
def Event.is_create : Event → Bool
  | .temp_dir_created _ => true
  | _ => false

/-- Whether an event is a temp-directory release. -/
def Event.is_release : Event → Bool
  | .temp_dir_released _ => true
  | _ => false

/-- Whether an event is an INF file write. -/
def Event.is_written : Event → Bool
  | .file_written _ _ => true
  | _ => false

/-- Whether an event is a native prepare or install call. -/
def Event.is_native_call : Event → Bool
  | .prepare_called _ => true
  | .install_called _ => true
  | _ => false

/-- No native prepare/install call occurs after any temp-directory release
in the trace: the scoped directory is alive throughout every native call. -/
def no_call_after_release : List Event → Bool
  | [] => true
  | e :: rest =>
    if Event.is_release e then
      !(rest.any Event.is_native_call) && no_call_after_release rest
    else no_call_after_release rest

/-- Every native prepare/install call in the trace is preceded by the INF
file write: scanning left to right, no call event occurs before a
`file_written` event. -/
def no_call_before_write : List Event → Bool
  | [] => true
  | .file_written _ _ :: _ => true
  | .prepare_called _ :: _ => false
  | .install_called _ :: _ => false
  | _ :: rest => no_call_before_write rest

/-- The temp-resource lifetime discipline of one run: every created scoped
temp directory is released exactly once (so it is absent after the run),
at most one is created, and no native call happens after a release. -/
def balanced_release (trace : List Event) : Prop :=
  (trace.filter Event.is_release).length = (trace.filter Event.is_create).length
  ∧ (trace.filter Event.is_create).length ≤ 1
  ∧ no_call_after_release trace = true

/-- The enumeration options `find_device` passes to `create_list`. -/
def selection_list_options : CreateListOptions :=
  { list_all := true, list_hubs := false, trim_whitespaces := true }

/-- A device record with every optional field absent. -/
def blank_device : Device :=
  { vid := 0, pid := 0, is_composite := false, mi := 0, desc := none,
    driver := none, device_id := none, hardware_id := none,
    compatible_id := none, upper_filter := none, driver_version := 0 }

/-- An environment in which enumeration finds nothing, temp-directory
creation and writes succeed, no path exists, and both native calls report
success. -/
def quiet_env : Env :=
  { create_list := fun _ => .ok []
    new_temp_dir := some (Path.root (some "T"))
    write_ok := true
    fs_exists := fun _ => false
    prepare_code := 0
    install_code := 0 }

/-- A device with VID 1, PID 1 and no installed driver. -/
def target_device : Device :=
  { blank_device with vid := 1, pid := 1, desc := some "target" }

/-- An environment whose enumeration finds exactly `target_device`. -/
def found_env : Env :=
  { quiet_env with create_list := fun _ => .ok [target_device] }

/-- A device whose description contains an embedded NUL character. -/
def c2_nul_device : Device :=
  { blank_device with desc := some "a\x00b" }

/-- A device that already has a WinUSB driver installed. -/
def c3_winusb_device : Device :=
  { blank_device with vid := 1, pid := 1, driver := some "WinUSB v2" }

/-- Catalog fixture: first (1,1) device. -/
def c4_dev0 : Device := { blank_device with vid := 1, pid := 1, desc := some "first" }

/-- Catalog fixture: the (2,2) device. -/
def c4_dev1 : Device := { blank_device with vid := 2, pid := 2, desc := some "second" }

/-- Catalog fixture: second (1,1) device. -/
def c4_dev2 : Device := { blank_device with vid := 1, pid := 1, desc := some "third" }

/-- An environment whose enumeration yields the three-device catalog
[(1,1), (2,2), (1,1)]. -/
def c4_env : Env :=
  { quiet_env with create_list := fun _ => .ok [c4_dev0, c4_dev1, c4_dev2] }

/-- An environment in which the native enumeration itself fails with the
`Busy` status code. -/
def c6_busy_env : Env :=
  { quiet_env with create_list := fun _ => .error .Busy }

/-- The prepare call made by a Generated-source run against `found_env`. -/
def c1_generated_call : PrepareCall :=
  { device_info := marshal_device target_device
    path := "T"
    inf_name := "T\\generated.inf"
    opts := marshal_prepare_options PrepareDriverOptions.mk_default }

/-- An external INF path `C:\drv\dev.inf` with parent `C:\drv`. -/
def c9_ext_path : Path :=
  Path.child (Path.root (some "C:\\drv")) (some "C:\\drv\\dev.inf")

/-- `quiet_env` with every path reported as existing. -/
def all_exists_env : Env :=
  { quiet_env with fs_exists := fun _ => true }

/-- An installer for `target_device` using the external INF file at
`c9_ext_path`. -/
def c9_ext_inst : DriverInstaller :=
  { DriverInstaller.for_specific_device target_device with
      inf_source := .External c9_ext_path }

/-- An installer for `target_device` with an embedded INF file. -/
def c5_emb_inst : DriverInstaller :=
  { DriverInstaller.for_specific_device target_device with
      inf_source := .Embedded [1, 2] "dev.inf" }

end Wdi

/-! ## Theorems settling the claims -/

namespace Wdi

/-- C7: the native-status-code translation is total (a total function of
the integer code, hence never panicking): code 0 maps to success, codes
-1 .. -19 and -99 map one-to-one to
Io, InvalidParam, Access, NoDevice, NotFound, Busy, Timeout, Overflow,
PendingInstallation, Interrupted, Resource, NotSupported, Exists,
UserCancel, NeedsAdmin, Wow64, InfSyntax, CatMissing, Unsigned, Other
respectively, and every other integer code maps to `Unknown code`. -/
theorem c7_from_code_taxonomy :
    (∀ p ∈ known_code_map, Error.from_code p.1 = p.2)
  ∧ (∀ code : Int, code ∉ known_code_map.map Prod.fst →
      Error.from_code code = .error (.Unknown code)) := by
  constructor
  · decide
  · intro code h
    unfold Error.from_code
    repeat rw [if_neg (fun hc => h (by rw [hc]; decide))]

/-- Witness for C7: the known code 0 maps to success and the unrecognized
code 7 maps to `Unknown 7`. -/
theorem c7_from_code_taxonomy_witness :
    Error.from_code 0 = .ok () ∧ Error.from_code 7 = .error (.Unknown 7) :=
  ⟨c7_from_code_taxonomy.1 (0, .ok ()) (by decide),
   c7_from_code_taxonomy.2 7 (by decide)⟩

/-- C10: for every device list, `is_empty` is true exactly when `len` is
zero; `get index` is `some` exactly when `index < len`, and then returns
the index-th device produced by the iterator; and `from_vid_pid` returns
exactly the devices whose vid and pid both match, in iteration order (a
sublist of the iterated sequence). -/
theorem c10_device_list_contract (l : DeviceList) (i vid pid : Nat) :
    (l.is_empty = true ↔ l.len = 0)
  ∧ (∀ d, l.get i = some d ↔ i < l.len ∧ l.iter.get? i = some d)
  ∧ (∀ d, d ∈ l.from_vid_pid vid pid ↔ d ∈ l.iter ∧ d.vid = vid ∧ d.pid = pid)
  ∧ (l.from_vid_pid vid pid).Sublist l.iter := by
  refine ⟨?_, ?_, ?_, ?_⟩
  · obtain ⟨ds⟩ := l
    cases ds <;> simp [DeviceList.is_empty, DeviceList.len, DeviceList.iter]
  · intro d
    constructor
    · intro h
      obtain ⟨hlt, -⟩ := List.get?_eq_some.mp h
      exact ⟨hlt, h⟩
    · exact fun h => h.2
  · intro d
    simp [DeviceList.from_vid_pid, DeviceList.iter, List.mem_filter,
          Bool.and_eq_true, beq_iff_eq, and_assoc]
  · exact List.filter_sublist _

/-- C2 counterexample: a device whose description string contains an
embedded NUL does not make `prepare_driver` fail with InvalidParam — the
native call is still made (the claim says no native call may occur and
the result must be InvalidParam). -/
theorem c2_counterexample :
    (prepare_driver c2_nul_device "C:\\drivers" "dev.inf"
        PrepareDriverOptions.mk_default 0).native_call.isSome = true
  ∧ (prepare_driver c2_nul_device "C:\\drivers" "dev.inf"
        PrepareDriverOptions.mk_default 0).result = .ok () := by
  decide

/-- C2 amended: for both `prepare_driver` and `install_driver`, an
embedded NUL in the directory-path string or the INF-name string fails
fast with InvalidParam before the native call occurs; device strings and
option strings containing an embedded NUL do not cause an error — they
are marshalled as null pointers and the native call proceeds. -/
theorem c2_nul_string_handling (device : Device) (path inf_name : String)
    (popts : PrepareDriverOptions) (iopts : InstallDriverOptions) (code : Int) :
    ((contains_nul path = true ∨ contains_nul inf_name = true) →
        prepare_driver device path inf_name popts code =
          { native_call := none, result := .error .InvalidParam }
      ∧ install_driver device path inf_name iopts code =
          { native_call := none, result := .error .InvalidParam })
  ∧ (contains_nul path = false → contains_nul inf_name = false →
        (prepare_driver device path inf_name popts code).native_call =
          some { device_info := marshal_device device, path := path,
                 inf_name := inf_name, opts := marshal_prepare_options popts }
      ∧ (install_driver device path inf_name iopts code).native_call =
          some { device_info := marshal_device device, path := path,
                 inf_name := inf_name, opts := marshal_install_options iopts })
  ∧ (∀ s, contains_nul s = true →
        (marshal_device { device with desc := some s }).desc = none
      ∧ (marshal_prepare_options { popts with vendor_name := some s }).vendor_name = none) := by
  refine ⟨?_, ?_, ?_⟩
  · rintro (h | h)
    · simp [prepare_driver, install_driver, cstring_new, h]
    · by_cases hp : contains_nul path <;>
        simp [prepare_driver, install_driver, cstring_new, h, hp]
  · intro hp hi
    simp [prepare_driver, install_driver, cstring_new, hp, hi]
  · intro s hs
    simp [marshal_device, marshal_prepare_options, opt_cstring, cstring_new, hs]

/-- Witness for C2 amended: a NUL in the path argument fails with
InvalidParam before the native call, while NUL-free path and INF-name
reach the native call. -/
theorem c2_nul_string_handling_witness :
    (contains_nul "C:\x00drv" = true ∨ contains_nul "dev.inf" = true)
  ∧ prepare_driver blank_device "C:\x00drv" "dev.inf"
      PrepareDriverOptions.mk_default 0 =
      { native_call := none, result := .error .InvalidParam }
  ∧ (prepare_driver blank_device "C:\\drv" "dev.inf"
      PrepareDriverOptions.mk_default 0).native_call =
      some { device_info := marshal_device blank_device, path := "C:\\drv",
             inf_name := "dev.inf",
             opts := marshal_prepare_options PrepareDriverOptions.mk_default } :=
  ⟨Or.inl (by decide),
   ((c2_nul_string_handling blank_device "C:\x00drv" "dev.inf"
      PrepareDriverOptions.mk_default InstallDriverOptions.mk_default 0).1
      (Or.inl (by decide))).1,
   ((c2_nul_string_handling blank_device "C:\\drv" "dev.inf"
      PrepareDriverOptions.mk_default InstallDriverOptions.mk_default 0).2.1
      (by decide) (by decide)).1⟩

/-- C3: whenever the selected device's driver field is present — whatever
its value, WinUSB-prefixed or not — `install` fails with `Exists` and
returns the empty event trace, so no temporary directory is created and
neither the prepare nor the install native call is made; when the driver
field is absent the conflict check passes. -/
theorem c3_conflict_short_circuit (inst : DriverInstaller) (env : Env)
    (device : Device) (s : String) :
    (inst.find_device env = .ok device → device.driver = some s →
       inst.install env = ([], .error .Exists))
  ∧ (device.driver = none → DriverInstaller.check_existing_driver device = .ok ()) := by
  constructor
  · intro hf hd
    simp [DriverInstaller.install, hf, DriverInstaller.check_existing_driver, hd]
  · intro hd
    simp [DriverInstaller.check_existing_driver, hd]

/-- Witness for C3: a device carrying driver "WinUSB v2" short-circuits
with Exists and an empty trace; a driver-less device passes the check. -/
theorem c3_conflict_short_circuit_witness :
    (DriverInstaller.for_specific_device c3_winusb_device).install quiet_env
      = ([], .error .Exists)
  ∧ DriverInstaller.check_existing_driver blank_device = .ok () :=
  ⟨(c3_conflict_short_circuit (DriverInstaller.for_specific_device c3_winusb_device)
      quiet_env c3_winusb_device "WinUSB v2").1 rfl rfl,
   (c3_conflict_short_circuit (DriverInstaller.for_specific_device blank_device)
      quiet_env blank_device "x").2 rfl⟩

/-- C4: VidPid selection enumerates with list_all=true, list_hubs=false,
trim_whitespace=true (visible in the `selection_list_options` hypothesis),
fails with NotFound when nothing matches both fields, returns the first
match in enumeration order when several match, and predicate selection
returns the first device satisfying the predicate; on the concrete catalog
[(1,1),(2,2),(1,1)], VidPid(1,1) yields the device at index 0 and a
pid==2 predicate yields the device at index 1. -/
theorem c4_selector_first_match (env env2 : Env) (catalog : List Device)
    (vid pid : Nat) (predicate : Device → Bool) :
    (env.create_list selection_list_options = .ok catalog →
        (catalog.filter (fun d => d.vid == vid && d.pid == pid) = [] →
           (DriverInstaller.new (.VidPid vid pid)).find_device env = .error .NotFound)
      ∧ (∀ d rest,
           catalog.filter (fun d => d.vid == vid && d.pid == pid) = d :: rest →
           (DriverInstaller.new (.VidPid vid pid)).find_device env = .ok d)
      ∧ (∀ d, catalog.find? predicate = some d →
           (DriverInstaller.new (.First predicate)).find_device env = .ok d))
  ∧ (env2.create_list selection_list_options = .ok [c4_dev0, c4_dev1, c4_dev2] →
       (DriverInstaller.new (.VidPid 1 1)).find_device env2 = .ok c4_dev0
     ∧ (DriverInstaller.new (.First (fun d => d.pid == 2))).find_device env2 = .ok c4_dev1) := by
  constructor
  · intro h
    simp only [selection_list_options] at h
    refine ⟨?_, ?_, ?_⟩
    · intro hfil
      cases catalog with
      | nil => simp [DriverInstaller.find_device, DriverInstaller.new, h]
      | cons a tl =>
        simp [DriverInstaller.find_device, DriverInstaller.new, h, hfil]
    · intro d rest hfil
      cases catalog with
      | nil => simp at hfil
      | cons a tl =>
        simp [DriverInstaller.find_device, DriverInstaller.new, h, hfil]
    · intro d hfind
      cases catalog with
      | nil => simp at hfind
      | cons a tl =>
        simp [DriverInstaller.find_device, DriverInstaller.new, h, hfind]
  · intro h2
    simp only [selection_list_options] at h2
    constructor <;>
    · simp only [DriverInstaller.find_device, DriverInstaller.new, h2]
      decide

/-- Witness for C4 on the concrete [(1,1),(2,2),(1,1)] catalog. -/
theorem c4_selector_first_match_witness :
    (DriverInstaller.new (.VidPid 1 1)).find_device c4_env = .ok c4_dev0
  ∧ (DriverInstaller.new (.First (fun d => d.pid == 2))).find_device c4_env = .ok c4_dev1 :=
  (c4_selector_first_match c4_env c4_env [c4_dev0, c4_dev1, c4_dev2] 1 1
    (fun d => d.pid == 2)).2 rfl

/-- C8: with an empty enumeration catalog, installing by any VidPid pair
or any predicate returns exactly `([], error NotFound)` — a total result
(no panic) that in particular is never an `Unknown` error. -/
theorem c8_empty_catalog_not_found (env : Env) (vid pid : Nat)
    (predicate : Device → Bool) :
    env.create_list selection_list_options = .ok [] →
      (DriverInstaller.new (.VidPid vid pid)).install env = ([], .error .NotFound)
    ∧ (DriverInstaller.new (.First predicate)).install env = ([], .error .NotFound) := by
  intro h
  simp only [selection_list_options] at h
  constructor <;>
    simp [DriverInstaller.install, DriverInstaller.find_device,
          DriverInstaller.new, h]

/-- Witness for C8 against the empty-catalog environment. -/
theorem c8_empty_catalog_not_found_witness :
    (DriverInstaller.new (.VidPid 3 4)).install quiet_env = ([], .error .NotFound)
  ∧ (DriverInstaller.new (.First (fun _ => true))).install quiet_env
      = ([], .error .NotFound) :=
  c8_empty_catalog_not_found quiet_env 3 4 (fun _ => true) rfl

/-- C6 counterexample: when the enumeration performed by the Selecting
phase fails with `Busy`, `install` returns `Busy`, not `NotFound` — so
"every failure of the Selecting phase returns NotFound" is false. -/
theorem c6_counterexample :
    (DriverInstaller.for_device 1 2).install c6_busy_env = ([], .error .Busy)
  ∧ Error.Busy ≠ Error.NotFound := by
  refine ⟨by decide, by decide⟩

/-- C6 amended: every failure of the Selecting phase makes `install` stop
with an empty event trace (no resources created); a failure because the
catalog is empty or nothing matches yields NotFound, while a failure of
the enumeration itself is surfaced unchanged. -/
theorem c6_selecting_failure_stops (inst : DriverInstaller) (env : Env)
    (e : Error) (catalog : List Device) (vid pid : Nat)
    (predicate : Device → Bool) :
    (inst.find_device env = .error e → inst.install env = ([], .error e))
  ∧ (env.create_list selection_list_options = .error e →
       (DriverInstaller.new (.VidPid vid pid)).find_device env = .error e
     ∧ (DriverInstaller.new (.First predicate)).find_device env = .error e)
  ∧ (env.create_list selection_list_options = .ok catalog →
       catalog.filter (fun d => d.vid == vid && d.pid == pid) = [] →
       (DriverInstaller.new (.VidPid vid pid)).find_device env = .error .NotFound)
  ∧ (env.create_list selection_list_options = .ok catalog →
       catalog.find? predicate = none →
       (DriverInstaller.new (.First predicate)).find_device env = .error .NotFound) := by
  refine ⟨?_, ?_, ?_, ?_⟩
  · intro hf
    simp [DriverInstaller.install, hf]
  · intro h
    simp only [selection_list_options] at h
    constructor <;> simp [DriverInstaller.find_device, DriverInstaller.new, h]
  · intro h hfil
    simp only [selection_list_options] at h
    cases catalog with
    | nil => simp [DriverInstaller.find_device, DriverInstaller.new, h]
    | cons a tl =>
      simp [DriverInstaller.find_device, DriverInstaller.new, h, hfil]
  · intro h hfind
    simp only [selection_list_options] at h
    cases catalog with
    | nil => simp [DriverInstaller.find_device, DriverInstaller.new, h]
    | cons a tl =>
      simp [DriverInstaller.find_device, DriverInstaller.new, h, hfind]

/-- Witness for C6 amended: a Busy enumeration failure propagates through
`find_device` and `install` unchanged, with an empty trace. -/
theorem c6_selecting_failure_stops_witness :
    (DriverInstaller.for_device 1 2).install c6_busy_env = ([], .error .Busy)
  ∧ (DriverInstaller.new (.VidPid 1 2)).find_device c6_busy_env = .error .Busy :=
  ⟨(c6_selecting_failure_stops (DriverInstaller.for_device 1 2) c6_busy_env
      .Busy [] 1 2 (fun _ => true)).1 rfl,
   ((c6_selecting_failure_stops (DriverInstaller.for_device 1 2) c6_busy_env
      .Busy [] 1 2 (fun _ => true)).2.1 rfl).1⟩

/-- C9: with an External INF source, a non-existent path fails the run
with NotFound; an existing path with no parent, a parent not representable
in the required encoding, or a path itself not representable fails with
InvalidParam; otherwise provisioning resolves the driver directory to the
path's parent (and the INF path to the path itself), with no temp dir. -/
theorem c9_external_source_resolution (inst : DriverInstaller) (device : Device)
    (env : Env) (path : Path) :
    inst.inf_source = .External path →
    ((env.fs_exists path = false →
        inst.prepare_and_install device env = ([], .error .NotFound))
  ∧ (env.fs_exists path = true → path.parent = none →
        inst.prepare_and_install device env = ([], .error .InvalidParam))
  ∧ (∀ par, env.fs_exists path = true → path.parent = some par →
        par.to_str = none →
        inst.prepare_and_install device env = ([], .error .InvalidParam))
  ∧ (∀ par dstr, env.fs_exists path = true → path.parent = some par →
        par.to_str = some dstr → path.to_str = none →
        inst.prepare_and_install device env = ([], .error .InvalidParam))
  ∧ (∀ par dstr istr, env.fs_exists path = true → path.parent = some par →
        par.to_str = some dstr → path.to_str = some istr →
        provision inst.inf_source env = ([], .ok (dstr, istr, none)))) := by
  intro hsrc
  refine ⟨?_, ?_, ?_, ?_, ?_⟩
  · intro hex
    simp [DriverInstaller.prepare_and_install, provision, hsrc, hex]
  · intro hex hpar
    simp [DriverInstaller.prepare_and_install, provision, hsrc, hex, hpar]
  · intro par hex hpar hstr
    simp [DriverInstaller.prepare_and_install, provision, hsrc, hex, hpar, hstr]
  · intro par dstr hex hpar hpstr hstr
    simp [DriverInstaller.prepare_and_install, provision, hsrc, hex, hpar,
          hpstr, hstr]
  · intro par dstr istr hex hpar hpstr hstr
    simp [provision, hsrc, hex, hpar, hpstr, hstr]

/-- Witness for C9: the external path `C:\drv\dev.inf` fails with NotFound
when absent, and resolves to driver directory `C:\drv` when present. -/
theorem c9_external_source_resolution_witness :
    c9_ext_inst.prepare_and_install target_device quiet_env
      = ([], .error .NotFound)
  ∧ provision c9_ext_inst.inf_source all_exists_env
      = ([], .ok ("C:\\drv", "C:\\drv\\dev.inf", none)) :=
  ⟨(c9_external_source_resolution c9_ext_inst target_device quiet_env
      c9_ext_path rfl).1 rfl,
   (c9_external_source_resolution c9_ext_inst target_device all_exists_env
      c9_ext_path rfl).2.2.2.2 (Path.root (some "C:\\drv")) "C:\\drv"
      "C:\\drv\\dev.inf" rfl rfl rfl rfl⟩

/-- `CString::new` returns the very string it was given when it succeeds. -/
theorem cstring_new_some {s t : String} (h : cstring_new s = some t) : t = s := by
  unfold cstring_new at h
  split at h
  · exact absurd h (by simp)
  · exact (Option.some.inj h).symm

/-- When `prepare_driver` reaches the native call, the call's arguments are
exactly the marshalled device, the two strings, and the marshalled
options. -/
theorem prepare_driver_call_args (device : Device) (path inf_name : String)
    (options : PrepareDriverOptions) (code : Int) (c : PrepareCall) :
    (prepare_driver device path inf_name options code).native_call = some c →
    c = { device_info := marshal_device device, path := path,
          inf_name := inf_name, opts := marshal_prepare_options options } := by
  cases hcp : cstring_new path with
  | none => simp [prepare_driver, hcp]
  | some pc =>
    cases hci : cstring_new inf_name with
    | none => simp [prepare_driver, hcp, hci]
    | some ic =>
      simp only [prepare_driver, hcp, hci]
      intro h
      have hc := (Option.some.inj h).symm
      subst hc
      rw [cstring_new_some hcp, cstring_new_some hci]

/-- The events emitted by provisioning are only temp-directory creations,
file writes, or temp-directory releases. -/
theorem provision_event_kinds_all (src : InfSource) (env : Env) :
    (provision src env).1.all
      (fun e => Event.is_create e || Event.is_written e || Event.is_release e)
      = true := by
  cases src <;> simp only [provision] <;> (repeat' split) <;>
    simp [Event.is_create, Event.is_written, Event.is_release]

/-- Membership form of `provision_event_kinds_all`. -/
theorem provision_event_kinds (src : InfSource) (env : Env) :
    ∀ e ∈ (provision src env).1,
      (Event.is_create e || Event.is_written e || Event.is_release e) = true :=
  fun e he => List.all_eq_true.mp (provision_event_kinds_all src env) e he

/-- Trace facts about the prepare-then-install tail: every prepare call it
makes carries the marshalled `prepare_opts`; it emits no warn, create, or
write events; its only release events are the final release of `temp`; and
no native call follows a release. -/
theorem run_prepare_install_trace (device : Device) (dp ip : String)
    (popts : PrepareDriverOptions) (iopts : InstallDriverOptions)
    (temp : Option Path) (env : Env) :
    (∀ c, Event.prepare_called c ∈
        (run_prepare_install device dp ip popts iopts temp env).1 →
        c.opts = marshal_prepare_options popts)
  ∧ (∀ was now, Event.warned_external_inf_override was now ∉
        (run_prepare_install device dp ip popts iopts temp env).1)
  ∧ ((run_prepare_install device dp ip popts iopts temp env).1.filter
        Event.is_release) = release_evs temp
  ∧ ((run_prepare_install device dp ip popts iopts temp env).1.filter
        Event.is_create) = []
  ∧ no_call_after_release
        (run_prepare_install device dp ip popts iopts temp env).1 = true := by
  rcases hpt : prepare_driver device dp ip popts env.prepare_code with ⟨nc, r⟩
  rcases hit : install_driver device dp ip iopts env.install_code with ⟨inc, ir⟩
  have hargs : ∀ c, nc = some c → c.opts = marshal_prepare_options popts := by
    intro c h
    have := prepare_driver_call_args device dp ip popts env.prepare_code c
    rw [hpt] at this
    exact congrArg PrepareCall.opts (this h) ▸ rfl
  simp only [run_prepare_install, hpt, hit]
  cases r with
  | error e =>
    cases nc with
    | none =>
      cases temp <;>
        simp [release_evs, no_call_after_release, Event.is_release,
              Event.is_create, Event.is_native_call]
    | some c =>
      cases temp <;>
        simp_all [release_evs, no_call_after_release, Event.is_release,
                  Event.is_create, Event.is_native_call]
  | ok v =>
    cases v
    cases ir with
    | error e =>
      cases nc with
      | none =>
        cases inc <;> cases temp <;>
          simp_all [release_evs, no_call_after_release, Event.is_release,
                    Event.is_create, Event.is_native_call]
      | some c =>
        cases inc <;> cases temp <;>
          simp_all [release_evs, no_call_after_release, Event.is_release,
                    Event.is_create, Event.is_native_call]
    | ok v2 =>
      cases v2
      cases nc with
      | none =>
        cases inc <;> cases temp <;>
          simp_all [release_evs, no_call_after_release, Event.is_release,
                    Event.is_create, Event.is_native_call]
      | some c =>
        cases inc <;> cases temp <;>
          simp_all [release_evs, no_call_after_release, Event.is_release,
                    Event.is_create, Event.is_native_call]

/-- Prepending release-free events preserves the no-call-after-release
check of the remainder. -/
theorem no_call_after_release_append (xs ys : List Event)
    (h : ∀ e ∈ xs, Event.is_release e = false) :
    no_call_after_release (xs ++ ys) = no_call_after_release ys := by
  induction xs with
  | nil => rfl
  | cons a tl ih =>
    have ha := h a (by simp)
    simp only [List.cons_append, no_call_after_release, ha]
    simp only [Bool.false_eq_true, if_false]
    exact ih fun e he => h e (by simp [he])

/-- When provisioning succeeds, the full trace of `prepare_and_install` is
the provisioning events, then warn events (never releases, creates, or
native calls), then the run tail whose only release is the final release
of the scoped temp dir, with no native call after it. -/
theorem prepare_and_install_trace_shape (inst : DriverInstaller) (device : Device)
    (env : Env) (evs : List Event) (dp ip : String) (temp : Option Path)
    (hp : provision inst.inf_source env = (evs, .ok (dp, ip, temp))) :
    ∃ warn run_evs res,
      inst.prepare_and_install device env = (evs ++ warn ++ run_evs, res)
      ∧ (∀ e ∈ warn, Event.is_release e = false ∧ Event.is_create e = false
            ∧ Event.is_native_call e = false)
      ∧ run_evs.filter Event.is_release = release_evs temp
      ∧ run_evs.filter Event.is_create = []
      ∧ no_call_after_release run_evs = true := by
  rcases hrun : run_prepare_install device dp ip
      { inst.options.prepare_opts with
          external_inf := !inst.inf_source.is_generated
          driver_type := inst.driver_type }
      inst.options.install_opts temp env with ⟨run_evs, res⟩
  have h3 := (run_prepare_install_trace device dp ip
      { inst.options.prepare_opts with
          external_inf := !inst.inf_source.is_generated
          driver_type := inst.driver_type }
      inst.options.install_opts temp env).2
  rw [hrun] at h3
  refine ⟨if inst.options.prepare_opts.external_inf ≠ !inst.inf_source.is_generated
      then [Event.warned_external_inf_override inst.options.prepare_opts.external_inf
              (!inst.inf_source.is_generated)]
      else [], run_evs, res, ?_, ?_, h3.2.1, h3.2.2.1, h3.2.2.2⟩
  · simp only [DriverInstaller.prepare_and_install, hp, hrun]
  · intro e he
    revert he
    split
    · intro he
      simp only [List.mem_singleton] at he
      subst he
      exact ⟨rfl, rfl, rfl⟩
    · intro he
      simp at he

/-- C1: the external-INF flag passed to the native prepare call is derived
solely from the INF source — 0 (false) for Generated, 1 (true) otherwise —
whatever value the caller configured; a differing configured value changes
the result in no way (it is only warned about), and the warning event
fires exactly with the caller's value and the derived value when they
differ. -/
theorem c1_external_inf_derived (inst : DriverInstaller) (device : Device)
    (env : Env) (b : Bool) :
    (∀ c, Event.prepare_called c ∈ (inst.prepare_and_install device env).1 →
        c.opts.external_inf = if inst.inf_source.is_generated then 0 else 1)
  ∧ (({ inst with options.prepare_opts.external_inf := b }).prepare_and_install
        device env).2 = (inst.prepare_and_install device env).2
  ∧ (∀ was now,
        Event.warned_external_inf_override was now
          ∈ (inst.prepare_and_install device env).1 →
        was ≠ now ∧ was = inst.options.prepare_opts.external_inf
          ∧ now = !inst.inf_source.is_generated)
  ∧ (∀ evs dp ip temp,
        provision inst.inf_source env = (evs, .ok (dp, ip, temp)) →
        inst.options.prepare_opts.external_inf ≠ !inst.inf_source.is_generated →
        Event.warned_external_inf_override inst.options.prepare_opts.external_inf
          (!inst.inf_source.is_generated)
          ∈ (inst.prepare_and_install device env).1) := by
  have hkinds := provision_event_kinds inst.inf_source env
  rcases hp : provision inst.inf_source env with ⟨evs, res⟩
  rw [hp] at hkinds
  refine ⟨?_, ?_, ?_, ?_⟩
  · intro c hc
    cases res with
    | error e =>
      simp only [DriverInstaller.prepare_and_install, hp] at hc
      have := hkinds _ hc
      simp [Event.is_create, Event.is_written, Event.is_release] at this
    | ok t =>
      rcases t with ⟨dp, ip, temp⟩
      rcases hrun : run_prepare_install device dp ip
          { inst.options.prepare_opts with
              external_inf := !inst.inf_source.is_generated
              driver_type := inst.driver_type }
          inst.options.install_opts temp env with ⟨run_evs, rres⟩
      simp only [DriverInstaller.prepare_and_install, hp, hrun] at hc
      rw [List.mem_append, List.mem_append] at hc
      rcases hc with (hc | hc) | hc
      · have := hkinds _ hc
        simp [Event.is_create, Event.is_written, Event.is_release] at this
      · revert hc
        split <;> simp
      · have h1 := (run_prepare_install_trace device dp ip
          { inst.options.prepare_opts with
              external_inf := !inst.inf_source.is_generated
              driver_type := inst.driver_type }
          inst.options.install_opts temp env).1 c
        rw [hrun] at h1
        have hco := h1 hc
        cases hgen : inst.inf_source.is_generated <;>
          simp [hco, hgen, marshal_prepare_options, bool_to_c_int]
  · obtain ⟨sel, dt, src, opts⟩ := inst
    obtain ⟨popts, iopts⟩ := opts
    obtain ⟨pdt, vn, dg, dcat, dsig, cs, wcid, ei⟩ := popts
    simp only at hp
    cases res with
    | error e =>
      simp [DriverInstaller.prepare_and_install, hp]
    | ok t =>
      rcases t with ⟨dp, ip, temp⟩
      rcases hrun : run_prepare_install device dp ip
          { driver_type := dt, vendor_name := vn, device_guid := dg,
            disable_cat := dcat, disable_signing := dsig,
            cert_subject := cs, use_wcid_driver := wcid,
            external_inf := !src.is_generated }
          iopts temp env with ⟨run_evs, rres⟩
      simp [DriverInstaller.prepare_and_install, hp, hrun]
  · intro was now hw
    cases res with
    | error e =>
      simp only [DriverInstaller.prepare_and_install, hp] at hw
      have := hkinds _ hw
      simp [Event.is_create, Event.is_written, Event.is_release] at this
    | ok t =>
      rcases t with ⟨dp, ip, temp⟩
      rcases hrun : run_prepare_install device dp ip
          { inst.options.prepare_opts with
              external_inf := !inst.inf_source.is_generated
              driver_type := inst.driver_type }
          inst.options.install_opts temp env with ⟨run_evs, rres⟩
      simp only [DriverInstaller.prepare_and_install, hp, hrun] at hw
      rw [List.mem_append, List.mem_append] at hw
      rcases hw with (hw | hw) | hw
      · have := hkinds _ hw
        simp [Event.is_create, Event.is_written, Event.is_release] at this
      · revert hw
        split
        · rename_i hne
          intro hw
          simp only [List.mem_singleton, Event.warned_external_inf_override.injEq] at hw
          obtain ⟨rfl, rfl⟩ := hw
          exact ⟨hne, rfl, rfl⟩
        · rename_i hne
          intro hw
          simp at hw
      · have h2 := (run_prepare_install_trace device dp ip
          { inst.options.prepare_opts with
              external_inf := !inst.inf_source.is_generated
              driver_type := inst.driver_type }
          inst.options.install_opts temp env).2.1 was now
        rw [hrun] at h2
        exact absurd hw h2
  · intro evs2 dp ip temp hp2 hne
    injection hp2 with h1 h2
    subst h1
    subst h2
    rcases hrun : run_prepare_install device dp ip
        { inst.options.prepare_opts with
            external_inf := !inst.inf_source.is_generated
            driver_type := inst.driver_type }
        inst.options.install_opts temp env with ⟨run_evs, rres⟩
    simp only [DriverInstaller.prepare_and_install, hp, hrun]
    rw [if_pos hne]
    simp

/-- Witness for C1: a Generated-source run passes external_inf = 0 to the
native prepare call; configuring the flag to true changes the run's result
in no way; and an Embedded-source run with the default (false) configured
flag emits the override warning for the derived value true. -/
theorem c1_external_inf_derived_witness :
    c1_generated_call.opts.external_inf =
      (if (DriverInstaller.for_specific_device target_device).inf_source.is_generated
        then 0 else 1)
  ∧ (({ DriverInstaller.for_specific_device target_device with
          options.prepare_opts.external_inf := true }).prepare_and_install
        target_device quiet_env).2
      = ((DriverInstaller.for_specific_device target_device).prepare_and_install
        target_device quiet_env).2
  ∧ Event.warned_external_inf_override
        c5_emb_inst.options.prepare_opts.external_inf
        (!c5_emb_inst.inf_source.is_generated)
      ∈ (c5_emb_inst.prepare_and_install target_device quiet_env).1 :=
  ⟨(c1_external_inf_derived (DriverInstaller.for_specific_device target_device)
      target_device quiet_env true).1 c1_generated_call (by decide),
   (c1_external_inf_derived (DriverInstaller.for_specific_device target_device)
      target_device quiet_env true).2.1,
   (c1_external_inf_derived c5_emb_inst target_device quiet_env true).2.2.2
      [.temp_dir_created (Path.root (some "T")),
       .file_written (Path.child (Path.root (some "T")) (some "T\\dev.inf")) [1, 2]]
      "T" "T\\dev.inf" (some (Path.root (some "T"))) (by decide) (by decide)⟩

/-- C5: for Embedded (and likewise Generated) INF sources, every run of
`prepare_and_install` releases each created scoped temp directory exactly
once (so it is absent after the run, on success and on every failure
path), creates at most one, never makes a native call after the release
(the directory outlives both the prepare and the install call), and — for
Embedded — writes the INF file before any native call, so the directory
contains the written file throughout both calls. -/
theorem c5_temp_resource_lifetime (inst : DriverInstaller) (device : Device)
    (env : Env) :
    (∀ data filename, inst.inf_source = .Embedded data filename →
        balanced_release (inst.prepare_and_install device env).1
      ∧ no_call_before_write (inst.prepare_and_install device env).1 = true)
  ∧ (inst.inf_source = .Generated →
        balanced_release (inst.prepare_and_install device env).1) := by
  constructor
  · intro data filename hsrc
    cases htd : env.new_temp_dir with
    | none =>
      have hp2 : provision inst.inf_source env = ([], .error .Resource) := by
        simp [provision, hsrc, htd]
      simp [DriverInstaller.prepare_and_install, hp2, balanced_release,
            no_call_after_release, no_call_before_write]
    | some td =>
      cases hts : td.to_str with
      | none =>
        have hp2 : provision inst.inf_source env
            = ([.temp_dir_created td, .temp_dir_released td],
               .error .InvalidParam) := by
          simp [provision, hsrc, htd, hts]
        simp [DriverInstaller.prepare_and_install, hp2, balanced_release,
              no_call_after_release, no_call_before_write, Event.is_release,
              Event.is_create, Event.is_native_call]
      | some driver_path =>
        cases hw : env.write_ok with
        | false =>
          have hp2 : provision inst.inf_source env
              = ([.temp_dir_created td, .temp_dir_released td],
                 .error .Resource) := by
            simp [provision, hsrc, htd, hts, hw]
          simp [DriverInstaller.prepare_and_install, hp2, balanced_release,
                no_call_after_release, no_call_before_write, Event.is_release,
                Event.is_create, Event.is_native_call]
        | true =>
          cases hjs : (td.join filename).to_str with
          | none =>
            have hp2 : provision inst.inf_source env
                = ([.temp_dir_created td, .file_written (td.join filename) data,
                    .temp_dir_released td], .error .InvalidParam) := by
              simp [provision, hsrc, htd, hts, hw, hjs]
            simp [DriverInstaller.prepare_and_install, hp2, balanced_release,
                  no_call_after_release, no_call_before_write, Event.is_release,
                  Event.is_create, Event.is_native_call]
          | some inf_path =>
            have hp2 : provision inst.inf_source env
                = ([.temp_dir_created td, .file_written (td.join filename) data],
                   .ok (driver_path, inf_path, some td)) := by
              simp [provision, hsrc, htd, hts, hw, hjs]
            obtain ⟨warn, run_evs, res, heq, hwarn, hrel, hcre, hnc⟩ :=
              prepare_and_install_trace_shape inst device env _ _ _ _ hp2
            rw [heq]
            have hwr : warn.filter Event.is_release = [] :=
              List.filter_eq_nil_iff.mpr fun e he => by simp [(hwarn e he).1]
            have hwc : warn.filter Event.is_create = [] :=
              List.filter_eq_nil_iff.mpr fun e he => by simp [(hwarn e he).2.1]
            refine ⟨⟨?_, ?_, ?_⟩, ?_⟩
            · simp [List.filter_append, hrel, hcre, hwr, hwc, release_evs,
                    Event.is_release, Event.is_create]
            · simp [List.filter_append, hcre, hwc, Event.is_create]
            · have hxs : ∀ e ∈ ([Event.temp_dir_created td,
                  Event.file_written (td.join filename) data] ++ warn),
                  Event.is_release e = false := by
                intro e he
                rcases List.mem_append.mp he with h | h
                · simp only [List.mem_cons, List.not_mem_nil, or_false] at h
                  rcases h with rfl | rfl <;> rfl
                · exact (hwarn e h).1
              rw [no_call_after_release_append _ _ hxs]
              exact hnc
            · simp [no_call_before_write]
  · intro hsrc
    cases htd : env.new_temp_dir with
    | none =>
      have hp2 : provision inst.inf_source env = ([], .error .Resource) := by
        simp [provision, hsrc, htd]
      simp [DriverInstaller.prepare_and_install, hp2, balanced_release,
            no_call_after_release]
    | some td =>
      cases hts : td.to_str with
      | none =>
        have hp2 : provision inst.inf_source env
            = ([.temp_dir_created td, .temp_dir_released td],
               .error .InvalidParam) := by
          simp [provision, hsrc, htd, hts]
        simp [DriverInstaller.prepare_and_install, hp2, balanced_release,
              no_call_after_release, Event.is_release, Event.is_create,
              Event.is_native_call]
      | some driver_path =>
        have hp2 : provision inst.inf_source env
            = ([.temp_dir_created td],
               .ok (driver_path, driver_path ++ "\\generated.inf", some td)) := by
          simp [provision, hsrc, htd, hts]
        obtain ⟨warn, run_evs, res, heq, hwarn, hrel, hcre, hnc⟩ :=
          prepare_and_install_trace_shape inst device env _ _ _ _ hp2
        rw [heq]
        have hwr : warn.filter Event.is_release = [] :=
          List.filter_eq_nil_iff.mpr fun e he => by simp [(hwarn e he).1]
        have hwc : warn.filter Event.is_create = [] :=
          List.filter_eq_nil_iff.mpr fun e he => by simp [(hwarn e he).2.1]
        refine ⟨?_, ?_, ?_⟩
        · simp [List.filter_append, hrel, hcre, hwr, hwc, release_evs,
                Event.is_release, Event.is_create]
        · simp [List.filter_append, hcre, hwc, Event.is_create]
        · have hxs : ∀ e ∈ ([Event.temp_dir_created td] ++ warn),
              Event.is_release e = false := by
            intro e he
            rcases List.mem_append.mp he with h | h
            · simp only [List.mem_cons, List.not_mem_nil, or_false] at h
              subst h
              rfl
            · exact (hwarn e h).1
          rw [no_call_after_release_append _ _ hxs]
          exact hnc

/-- Witness for C5: the concrete Embedded run against the found
environment keeps the temp dir alive across both calls and releases it
once, writing the INF before any call. -/
theorem c5_temp_resource_lifetime_witness :
    balanced_release (c5_emb_inst.prepare_and_install target_device quiet_env).1
  ∧ no_call_before_write
      (c5_emb_inst.prepare_and_install target_device quiet_env).1 = true :=
  (c5_temp_resource_lifetime c5_emb_inst target_device quiet_env).1
    [1, 2] "dev.inf" rfl

end Wdi
